import Mathlib

/-
  Verification of the gesture-to-command pipeline of the MP-3D
  hand-controlled music player (mpsgame.py).

  The Python source is shallowly embedded:
  - landmark coordinates are rationals (the source works with normalized
    floating-point coordinates; exact rational arithmetic stands in for it),
  - the orientation estimator, which uses sqrt and atan2, is embedded over
    the real numbers,
  - the per-frame main-loop body (zone routing, gesture dispatch, smoothing)
    is a pure state-transition function.
-/

/-- Directional gesture symbols produced by detect_hand_direction. -/
inductive Dir
  | up
  | down
  | left
  | right
deriving DecidableEq

/-- Playback commands dispatched to the MusicManager. -/
inductive Cmd
  | nextTrack
  | prevTrack
  | volumeUp
  | volumeDown
deriving DecidableEq

/-- Role of a detected hand: left screen half drives the cube visualizer,
right screen half drives the puck command controller. -/
inductive Role
  | visualizer
  | command
deriving DecidableEq

/-- One hand landmark: normalized 3D coordinates as reported by the
landmark source. -/
structure Pt3 where
  x : ℚ
  y : ℚ
  z : ℚ
deriving DecidableEq

/-- A hand is an ordered set of 21 landmarks. -/
def Landmarks : Type := Fin 21 → Pt3

-- Constants, from the module-level tuning parameters of mpsgame.py.
-- Decimal literals of the source are written as exact rationals
-- (0.08 = 2/25, 0.15 = 3/20, 0.5 = 1/2, 0.12 = 3/25, 0.05 = 1/20).

/-- Screen width in pixels (WIDTH = 1280). -/
def WIDTH : ℤ := 1280

/-- Screen height in pixels (HEIGHT = 720). -/
def HEIGHT : ℤ := 720

/-- Midline of the screen, screen_center_x = WIDTH // 2 = 640. -/
def screenCenterX : ℤ := 640

/-- Rotation smoothing factor SMOOTHING_FACTOR = 0.08. -/
def SMOOTHING_FACTOR : ℚ := 2 / 25

/-- Cube position smoothing factor POSITION_SMOOTHING = 0.15. -/
def POSITION_SMOOTHING : ℚ := 3 / 20

/-- Puck position smoothing factor PUCK_POSITION_SMOOTHING = 0.15. -/
def PUCK_POSITION_SMOOTHING : ℚ := 3 / 20

/-- Applied rotation multiplier ROTATION_SENSITIVITY = 1.2 (main loop). -/
noncomputable def ROTATION_SENSITIVITY : ℝ := 6 / 5

/-- Minimum seconds between accepted gestures, GESTURE_COOLDOWN = 0.5. -/
def GESTURE_COOLDOWN : ℚ := 1 / 2

/-- Minimum pointing-vector extension, GESTURE_THRESHOLD = 0.12. -/
def GESTURE_THRESHOLD : ℚ := 3 / 25

/-- Minimum palm movement between frames, MOVEMENT_THRESHOLD = 0.05. -/
def MOVEMENT_THRESHOLD : ℚ := 1 / 20

-- ================== Gesture Classifier (detect_hand_direction) ==========

/-- Palm center position: landmark 9 (middle finger base), projected to
its x,y coordinates; used for movement gating and returned for the next
frame. -/
def palmCenter (lm : Landmarks) : ℚ × ℚ := ((lm 9).x, (lm 9).y)

/-- Squared Euclidean distance between two 2D points. The source compares
np.linalg.norm (the Euclidean norm) against MOVEMENT_THRESHOLD; since both
sides are nonnegative, norm < T is equivalent to the squared comparison
used here, which keeps the predicate decidable over the rationals. -/
def dist2 (a b : ℚ × ℚ) : ℚ := (a.1 - b.1) ^ 2 + (a.2 - b.2) ^ 2

/-- Dominant-axis classification of the pointing vector (x, y) =
index fingertip minus wrist, from the second half of
detect_hand_direction: horizontal wins only when abs x exceeds
abs y times 1.5, vertical only in the symmetric case, and the winning
component must strictly exceed GESTURE_THRESHOLD in magnitude (screen y
grows downward, hence DOWN for positive y). -/
def classify (x y : ℚ) : Option Dir :=
  if |x| > |y| * (3 / 2) then
    if x > GESTURE_THRESHOLD then some Dir.right
    else if x < -GESTURE_THRESHOLD then some Dir.left
    else none
  else if |y| > |x| * (3 / 2) then
    if y > GESTURE_THRESHOLD then some Dir.down
    else if y < -GESTURE_THRESHOLD then some Dir.up
    else none
  else none

/-- Embedding of detect_hand_direction(landmarks, previous_position):
movement gate on the palm center followed by dominant-axis
classification of the wrist-to-index-fingertip vector. Returns the
detected direction (or none) and the current palm position. -/
def detect_hand_direction (lm : Landmarks) (prev : Option (ℚ × ℚ)) :
    Option Dir × (ℚ × ℚ) :=
  let wrist : ℚ × ℚ := ((lm 0).x, (lm 0).y)
  let fingertip : ℚ × ℚ := ((lm 8).x, (lm 8).y)
  let palm := palmCenter lm
  let blocked : Bool :=
    match prev with
    | some p => decide (dist2 palm p < MOVEMENT_THRESHOLD ^ 2)
    | none => false
  if blocked then (none, palm)
  else (classify (fingertip.1 - wrist.1) (fingertip.2 - wrist.2), palm)

-- ================== Command Debouncer (main-loop cooldown gate) =========

/-- The cooldown gate of the main loop: a classified gesture is accepted
exactly when a direction was detected and the elapsed time since the last
accepted gesture strictly exceeds GESTURE_COOLDOWN
(the source condition is direction and (current_time - last_gesture_time)
greater than GESTURE_COOLDOWN). -/
def gestureAccepted (dir : Option Dir) (t lastT : ℚ) : Bool :=
  dir.isSome && decide (t - lastT > GESTURE_COOLDOWN)

/-- Dispatch table of the main loop: UP raises volume, DOWN lowers it,
LEFT goes to the previous track, RIGHT to the next. -/
def cmdOf : Dir → Cmd
  | Dir.up => Cmd.volumeUp
  | Dir.down => Cmd.volumeDown
  | Dir.left => Cmd.prevTrack
  | Dir.right => Cmd.nextTrack

-- ================== Zone Router =========================================

/-- Truncation toward zero, the meaning of the Python int() conversion
applied to a nonnegative-or-negative rational. -/
def pyInt (q : ℚ) : ℤ := if 0 ≤ q then ⌊q⌋ else ⌈q⌉

/-- Zone routing of the main loop: a hand whose screen x-coordinate is
strictly left of the midline controls the cube (VISUALIZER); otherwise it
controls the puck (COMMAND). -/
def route (hx mid : ℤ) : Role :=
  if hx < mid then Role.visualizer else Role.command

-- ================== Orientation Estimator (get_hand_rotation) ===========

/-- A 3D vector over the reals, used for the orientation computation. -/
structure Vec3 where
  x : ℝ
  y : ℝ
  z : ℝ

/-- Landmark point as a real 3D vector. -/
noncomputable def Pt3.toVec (p : Pt3) : Vec3 := ⟨(p.x : ℝ), (p.y : ℝ), (p.z : ℝ)⟩

/-- Componentwise vector difference. -/
noncomputable def vsub (a b : Vec3) : Vec3 := ⟨a.x - b.x, a.y - b.y, a.z - b.z⟩

/-- Euclidean norm of a 3D vector (np.linalg.norm). -/
noncomputable def vnorm (v : Vec3) : ℝ := Real.sqrt (v.x ^ 2 + v.y ^ 2 + v.z ^ 2)

/-- Yaw sensitivity multiplier of get_hand_rotation (the literal 1.8). -/
noncomputable def YAW_SCALE : ℝ := 9 / 5

/-- Pitch damping factor of get_hand_rotation (the literal 0.3). -/
noncomputable def PITCH_DAMP : ℝ := 3 / 10

/-- Additive epsilon guarding the normalization (the literal 0.0001). -/
noncomputable def NORM_EPS : ℝ := 1 / 10000

/-- Two-argument arctangent, the meaning of np.arctan2(y, x). -/
noncomputable def atan2 (y x : ℝ) : ℝ :=
  if 0 < x then Real.arctan (y / x)
  else if x < 0 then
    (if 0 ≤ y then Real.arctan (y / x) + Real.pi
     else Real.arctan (y / x) - Real.pi)
  else if 0 < y then Real.pi / 2
  else if y < 0 then -(Real.pi / 2)
  else 0

/-- The forward vector: wrist (landmark 0) to middle finger base
(landmark 9). -/
noncomputable def forwardVec (lm : Landmarks) : Vec3 :=
  vsub ((lm 9).toVec) ((lm 0).toVec)

/-- The side vector: wrist (landmark 0) to index finger base
(landmark 5). -/
noncomputable def sideVec (lm : Landmarks) : Vec3 :=
  vsub ((lm 5).toVec) ((lm 0).toVec)

/-- Denominator used to normalize the forward vector:
np.linalg.norm(forward) + 0.0001. -/
noncomputable def forwardDenom (lm : Landmarks) : ℝ :=
  vnorm (forwardVec lm) + NORM_EPS

/-- Denominator used to normalize the side vector. -/
noncomputable def sideDenom (lm : Landmarks) : ℝ :=
  vnorm (sideVec lm) + NORM_EPS

/-- The epsilon-normalized forward vector. -/
noncomputable def forwardN (lm : Landmarks) : Vec3 :=
  ⟨(forwardVec lm).x / forwardDenom lm,
   (forwardVec lm).y / forwardDenom lm,
   (forwardVec lm).z / forwardDenom lm⟩

/-- Embedding of get_hand_rotation(landmarks): returns
(angle_x, angle_y, angle_z) where angle_y (yaw) is
arctan2(forward.x, -forward.z) scaled by 1.8, angle_x (pitch) is
arctan2(forward.y, sqrt(forward.x^2 + forward.z^2)) scaled by 0.3, and
angle_z (roll) is the constant 0, with forward the epsilon-normalized
wrist-to-middle-finger-base vector. -/
noncomputable def get_hand_rotation (lm : Landmarks) : ℝ × ℝ × ℝ :=
  let f := forwardN lm
  (atan2 f.y (Real.sqrt (f.x ^ 2 + f.z ^ 2)) * PITCH_DAMP,
   atan2 f.x (-f.z) * YAW_SCALE,
   0)

/-- Modelled from the spec (section 4.1), for claim C8 only: the
orientation formula as the spec words it, written independently of
the embedding of the code. Primary (yaw) angle atan2(forward.x,
-forward.z) times the sensitivity multiplier, secondary (pitch) angle
atan2(forward.y, sqrt(forward.x^2 + forward.z^2)) scaled down by 0.3,
tertiary (roll) angle fixed at zero, where forward is the wrist to
middle-finger-base vector normalized with a small additive epsilon
before dividing. -/
noncomputable def specRotation (lm : Landmarks) : ℝ × ℝ × ℝ :=
  let v := vsub ((lm 9).toVec) ((lm 0).toVec)
  let n := vnorm v + NORM_EPS
  (atan2 (v.y / n) (Real.sqrt ((v.x / n) ^ 2 + (v.z / n) ^ 2)) * PITCH_DAMP,
   atan2 (v.x / n) (-(v.z / n)) * YAW_SCALE,
   0)

-- ================== Temporal Smoother ===================================

/-- One smoothing update of the main loop, over the rationals:
smoothed += (raw - smoothed) * factor. -/
def smoothStep (s r f : ℚ) : ℚ := s + (r - s) * f

/-- One smoothing update of the main loop, over the reals (the same
formula; the rotation signal lives in ℝ in this embedding). -/
noncomputable def smoothStepR (s r f : ℝ) : ℝ := s + (r - s) * f

/-- The smoother iterated n times against a constant raw target. -/
def smoothIter (s r f : ℚ) : ℕ → ℚ
  | 0 => s
  | n + 1 => smoothStep (smoothIter s r f n) r f

/-- Componentwise smoothing of the three rotation components. -/
noncomputable def smooth3 (s r : ℝ × ℝ × ℝ) (f : ℝ) : ℝ × ℝ × ℝ :=
  (smoothStepR s.1 r.1 f, smoothStepR s.2.1 r.2.1 f, smoothStepR s.2.2 r.2.2 f)

-- ================== Main loop state and per-frame tick ==================

/-- The mutable module-level state touched by the per-frame main loop. -/
structure State where
  cubePosition : ℤ × ℤ
  cubeRotation : ℝ × ℝ × ℝ
  puckPosition : ℤ × ℤ
  previousHandPosition : Option (ℚ × ℚ)
  lastGestureTime : ℚ
  smoothedRotation : ℝ × ℝ × ℝ
  smoothedPosition : ℚ × ℚ
  smoothedPuckPosition : ℚ × ℚ

/-- Initial values of the module-level state in mpsgame.py:
cube at (200, 200), puck at (WIDTH - 200, HEIGHT // 2) = (1080, 360),
no previous hand position, last gesture time 0, smoothed values equal to
their raw counterparts. -/
noncomputable def initState : State where
  cubePosition := (200, 200)
  cubeRotation := (0, 0, 0)
  puckPosition := (1080, 360)
  previousHandPosition := none
  lastGestureTime := 0
  smoothedRotation := (0, 0, 0)
  smoothedPosition := (200, 200)
  smoothedPuckPosition := (1080, 360)

/-- Processing of a single detected hand inside the per-frame loop:
route by the palm screen x-coordinate; a VISUALIZER hand moves the cube
and sets its rotation from the orientation estimator (tilt and twist
locked to 0, yaw scaled by ROTATION_SENSITIVITY); a COMMAND hand moves
the puck, runs the gesture classifier against the stored previous palm
position, and dispatches a playback command when the cooldown gate
accepts. The accumulator carries the state, the commands dispatched so
far this frame, the landmark sets passed to the orientation estimator so
far this frame, and the active control indicator. -/
noncomputable def processHand (t : ℚ)
    (acc : State × List Cmd × List Landmarks × Option Dir)
    (lm : Landmarks) : State × List Cmd × List Landmarks × Option Dir :=
  let s := acc.1
  let hx := pyInt ((lm 9).x * (WIDTH : ℚ))
  let hy := pyInt ((lm 9).y * (HEIGHT : ℚ))
  if route hx screenCenterX = Role.visualizer then
    let angles := get_hand_rotation lm
    ({ s with
        cubePosition := (hx, hy),
        cubeRotation := (0, angles.2.1 * ROTATION_SENSITIVITY, 0) },
     acc.2.1, acc.2.2.1 ++ [lm], acc.2.2.2)
  else
    let dc := detect_hand_direction lm s.previousHandPosition
    let s1 := { s with
        puckPosition := (hx, hy),
        previousHandPosition := some dc.2 }
    if gestureAccepted dc.1 t s1.lastGestureTime then
      ({ s1 with lastGestureTime := t },
       acc.2.1 ++ (dc.1.map cmdOf).toList, acc.2.2.1, dc.1)
    else
      (s1, acc.2.1, acc.2.2.1, acc.2.2.2)

/-- Result of one frame of the main loop. -/
structure FrameResult where
  state : State
  dispatched : List Cmd
  estimatorInputs : List Landmarks
  activeControl : Option Dir

/-- One frame (tick) of the main loop: active_control is reset, every
detected hand is processed in order, then the three smoothing updates are
applied to the (possibly unchanged) raw targets. -/
noncomputable def tick (t : ℚ) (hands : List Landmarks) (s : State) :
    FrameResult :=
  let r := hands.foldl (processHand t) (s, [], [], none)
  let s1 := r.1
  { state := { s1 with
      smoothedRotation :=
        smooth3 s1.smoothedRotation s1.cubeRotation ((SMOOTHING_FACTOR : ℚ) : ℝ),
      smoothedPosition :=
        (smoothStep s1.smoothedPosition.1 (s1.cubePosition.1 : ℚ) POSITION_SMOOTHING,
         smoothStep s1.smoothedPosition.2 (s1.cubePosition.2 : ℚ) POSITION_SMOOTHING),
      smoothedPuckPosition :=
        (smoothStep s1.smoothedPuckPosition.1 (s1.puckPosition.1 : ℚ) PUCK_POSITION_SMOOTHING,
         smoothStep s1.smoothedPuckPosition.2 (s1.puckPosition.2 : ℚ) PUCK_POSITION_SMOOTHING) },
    dispatched := r.2.1
    estimatorInputs := r.2.2.1
    activeControl := r.2.2.2 }

-- ================== MusicManager volume requests ========================

/-- Volume requested by MusicManager.volume_up for current volume v:
min(v + 10, 100). -/
def volume_up_request (v : ℤ) : ℤ := min (v + 10) 100

/-- Volume requested by MusicManager.volume_down for current volume v:
max(v - 10, 0). -/
def volume_down_request (v : ℤ) : ℤ := max (v - 10) 0

-- ================== Concrete witness inputs =============================

/-- A hand in the left (cube) zone: palm center at x = 0.2 of frame
width. -/
def Lhand : Landmarks := fun i =>
  if i = 0 then ⟨1/5, 3/5, 0⟩
  else if i = 9 then ⟨1/5, 1/2, 0⟩
  else ⟨0, 0, 0⟩

/-- A hand in the right (puck) zone: palm center at x = 0.8 of frame
width, index fingertip pointing straight up (screen y decreasing) well
beyond the gesture threshold. -/
def Rhand : Landmarks := fun i =>
  if i = 0 then ⟨4/5, 7/10, 0⟩
  else if i = 8 then ⟨4/5, 3/10, 0⟩
  else if i = 9 then ⟨4/5, 1/2, 0⟩
  else ⟨0, 0, 0⟩

/-- A degenerate landmark set: all 21 points coincide, so the forward
vector has exactly zero length. -/
def Ldeg : Landmarks := fun _ => ⟨0, 0, 0⟩

/-- A landmark set in the left zone whose forward vector points straight
along positive y, giving the estimator a nonzero damped pitch. -/
def Lup : Landmarks := fun i => if i = 9 then ⟨0, 1, 0⟩ else ⟨0, 0, 0⟩

/-- A stationary hand for the movement gate: palm center exactly at the
previous position (1/2, 1/2) while the index fingertip points far to the
right of the wrist. -/
def Lstat : Landmarks := fun i =>
  if i = 0 then ⟨1/10, 1/2, 0⟩
  else if i = 8 then ⟨9/10, 1/2, 0⟩
  else if i = 9 then ⟨1/2, 1/2, 0⟩
  else ⟨0, 0, 0⟩

/-- The state used by the end-to-end scenario: the initial module state
with a stored previous palm position far enough from the palm of the
right hand that the movement gate passes, and no previously accepted
command. -/
noncomputable def scenarioState : State :=
  { initState with previousHandPosition := some (1/2, 1/2) }

-- ================== Landmark evaluation lemmas ==========================

theorem Lhand_at_0 : Lhand 0 = ⟨1/5, 3/5, 0⟩ := rfl

theorem Lhand_at_9 : Lhand 9 = ⟨1/5, 1/2, 0⟩ := rfl

theorem Rhand_at_0 : Rhand 0 = ⟨4/5, 7/10, 0⟩ := rfl

theorem Rhand_at_8 : Rhand 8 = ⟨4/5, 3/10, 0⟩ := rfl

theorem Rhand_at_9 : Rhand 9 = ⟨4/5, 1/2, 0⟩ := rfl

theorem Lup_at_0 : Lup 0 = ⟨0, 0, 0⟩ := rfl

theorem Lup_at_9 : Lup 9 = ⟨0, 1, 0⟩ := rfl

theorem Lstat_at_0 : Lstat 0 = ⟨1/10, 1/2, 0⟩ := rfl

theorem Lstat_at_8 : Lstat 8 = ⟨9/10, 1/2, 0⟩ := rfl

theorem Lstat_at_9 : Lstat 9 = ⟨1/2, 1/2, 0⟩ := rfl

theorem Ldeg_at (i : Fin 21) : Ldeg i = ⟨0, 0, 0⟩ := rfl

-- ================== C1: Command Debouncer ===============================

/-- C1 counterexample: the claim requires acceptance whenever the elapsed
time is at least the cooldown interval, but the source condition is a
strict comparison: with the last command accepted at time 0 and a
qualifying gesture at exactly time 0.5, the elapsed time equals the
cooldown, yet the gesture is rejected. -/
theorem debouncer_cooldown_cex :
    some Dir.up ≠ (none : Option Dir) ∧
    (1/2 : ℚ) - 0 ≥ GESTURE_COOLDOWN ∧
    gestureAccepted (some Dir.up) (1/2) 0 = false := by
  refine ⟨by simp, by norm_num [GESTURE_COOLDOWN], ?_⟩
  norm_num [gestureAccepted, GESTURE_COOLDOWN]

/-- C1 (amended): the debouncer accepts a gesture if and only if it is
not NONE and the elapsed time since the last accepted command strictly
exceeds the cooldown interval (0.5s); with a command accepted at t = 0.0,
a qualifying gesture at t = 0.3 is rejected and one at t = 0.6 is
accepted; and for a command-zone hand the last-accepted timestamp is
updated to the current time exactly when the gesture is accepted, and is
left unchanged otherwise. -/
theorem debouncer_cooldown_amended (dir : Option Dir) (t lastT : ℚ)
    (st : State) (cmds : List Cmd) (est : List Landmarks) (act : Option Dir)
    (lm : Landmarks)
    (hz : route (pyInt ((lm 9).x * (WIDTH : ℚ))) screenCenterX = Role.command) :
    (gestureAccepted dir t lastT = true ↔
      dir ≠ none ∧ t - lastT > GESTURE_COOLDOWN) ∧
    gestureAccepted (some Dir.up) (3/10) 0 = false ∧
    gestureAccepted (some Dir.up) (3/5) 0 = true ∧
    ((processHand t (st, cmds, est, act) lm).1.lastGestureTime =
      if gestureAccepted (detect_hand_direction lm st.previousHandPosition).1
          t st.lastGestureTime
      then t else st.lastGestureTime) := by
  refine ⟨?_, ?_, ?_, ?_⟩
  · cases dir <;> simp [gestureAccepted]
  · norm_num [gestureAccepted, GESTURE_COOLDOWN]
  · norm_num [gestureAccepted, GESTURE_COOLDOWN]
  · have hnv : ¬(route (pyInt ((lm 9).x * (WIDTH : ℚ))) screenCenterX
        = Role.visualizer) := by
      rw [hz]; simp
    cases hacc : gestureAccepted (detect_hand_direction lm st.previousHandPosition).1
        t st.lastGestureTime with
    | false => simp [processHand, hnv, hacc]
    | true => simp [processHand, hnv, hacc]

-- ================== C2: dominant-axis classification ====================

/-- C2: the classifier declares an axis dominant only under the strict
1.5 ratio, returns NONE when the two magnitudes are equal, and within the
dominant axis emits a direction only when the component strictly exceeds
the gesture threshold; a dominant component whose magnitude does not
exceed the threshold yields NONE. -/
theorem classifier_dominant_axis (x y : ℚ) :
    (classify x y = some Dir.right → |x| > |y| * (3/2) ∧ x > GESTURE_THRESHOLD) ∧
    (classify x y = some Dir.left → |x| > |y| * (3/2) ∧ x < -GESTURE_THRESHOLD) ∧
    (classify x y = some Dir.down → |y| > |x| * (3/2) ∧ y > GESTURE_THRESHOLD) ∧
    (classify x y = some Dir.up → |y| > |x| * (3/2) ∧ y < -GESTURE_THRESHOLD) ∧
    (|x| = |y| → classify x y = none) ∧
    (|x| > |y| * (3/2) → x > GESTURE_THRESHOLD → classify x y = some Dir.right) ∧
    (|x| > |y| * (3/2) → x < -GESTURE_THRESHOLD → classify x y = some Dir.left) ∧
    (|x| > |y| * (3/2) → |x| ≤ GESTURE_THRESHOLD → classify x y = none) ∧
    (|y| > |x| * (3/2) → |y| ≤ GESTURE_THRESHOLD → classify x y = none) := by
  have hax : (0:ℚ) ≤ |x| := abs_nonneg x
  have hay : (0:ℚ) ≤ |y| := abs_nonneg y
  refine ⟨?_, ?_, ?_, ?_, ?_, ?_, ?_, ?_, ?_⟩
  · intro h
    unfold classify at h
    split_ifs at h <;>
      first
        | exact ⟨by assumption, by assumption⟩
        | simp_all
  · intro h
    unfold classify at h
    split_ifs at h <;>
      first
        | exact ⟨by assumption, by assumption⟩
        | simp_all
  · intro h
    unfold classify at h
    split_ifs at h <;>
      first
        | exact ⟨by assumption, by assumption⟩
        | simp_all
  · intro h
    unfold classify at h
    split_ifs at h <;>
      first
        | exact ⟨by assumption, by assumption⟩
        | simp_all
  · intro hxy
    have hA : ¬(|x| > |y| * (3/2)) := by rw [hxy]; intro hc; linarith
    have hD : ¬(|y| > |x| * (3/2)) := by rw [hxy]; intro hc; linarith
    unfold classify
    rw [if_neg hA, if_neg hD]
  · intro hA hB
    unfold classify
    rw [if_pos hA, if_pos hB]
  · intro hA hC
    have hB : ¬(x > GESTURE_THRESHOLD) := by
      have hT : (0:ℚ) < GESTURE_THRESHOLD := by norm_num [GESTURE_THRESHOLD]
      intro hc
      have := neg_abs_le x
      linarith [le_abs_self x, abs_lt.mp (show |x| < |x| + 1 by linarith)]
    unfold classify
    rw [if_pos hA, if_neg hB, if_pos hC]
  · intro hA hle
    have hB : ¬(x > GESTURE_THRESHOLD) := by
      intro hc
      have := le_abs_self x
      linarith
    have hC : ¬(x < -GESTURE_THRESHOLD) := by
      intro hc
      have := neg_abs_le x
      linarith
    unfold classify
    rw [if_pos hA, if_neg hB, if_neg hC]
  · intro hD hle
    have hA : ¬(|x| > |y| * (3/2)) := by
      intro hc
      linarith
    have hE : ¬(y > GESTURE_THRESHOLD) := by
      intro hc
      have := le_abs_self y
      linarith
    have hF : ¬(y < -GESTURE_THRESHOLD) := by
      intro hc
      have := neg_abs_le y
      linarith
    unfold classify
    rw [if_neg hA, if_pos hD, if_neg hE, if_neg hF]

/-- C2 witness: the example given in the spec, pointing vector (0.2, 0.05):
horizontal dominance holds and the classifier yields RIGHT; mirrored to
(-0.2, 0.05) it yields LEFT; and at equal magnitudes it yields NONE. -/
theorem classifier_dominant_axis_witness :
    |(1/5 : ℚ)| > |(1/20 : ℚ)| * (3/2) ∧
    (1/5 : ℚ) > GESTURE_THRESHOLD ∧
    classify (1/5) (1/20) = some Dir.right ∧
    classify (-(1/5)) (1/20) = some Dir.left ∧
    classify (1/10) (1/10) = none := by
  have h1 : |(1/5 : ℚ)| > |(1/20 : ℚ)| * (3/2) := by norm_num [abs]
  have h2 : (1/5 : ℚ) > GESTURE_THRESHOLD := by norm_num [GESTURE_THRESHOLD]
  refine ⟨h1, h2, ?_, ?_, ?_⟩
  · exact (classifier_dominant_axis (1/5) (1/20)).2.2.2.2.2.1 h1 h2
  · exact (classifier_dominant_axis (-(1/5)) (1/20)).2.2.2.2.2.2.1
      (by norm_num [abs]) (by norm_num [GESTURE_THRESHOLD])
  · exact (classifier_dominant_axis (1/10) (1/10)).2.2.2.2.1 (by norm_num [abs])

-- ================== C3: movement gate ===================================

/-- C3: whenever a previous palm position exists and the current palm
center (landmark 9) lies within the movement threshold of it, the
classifier returns NONE regardless of the fingertip direction, and still
returns the current palm center as the position for the next call. The
source compares the Euclidean norm with the threshold; both sides being
nonnegative, this is the squared comparison used here. -/
theorem stationary_hand_yields_none (lm : Landmarks) (prev : ℚ × ℚ)
    (h : dist2 (palmCenter lm) prev < MOVEMENT_THRESHOLD ^ 2) :
    detect_hand_direction lm (some prev) = (none, palmCenter lm) := by
  unfold detect_hand_direction
  simp [h]

/-- C3 witness: a concrete hand whose palm sits exactly at the previous
position while its index fingertip points far to the right of the wrist
(a direction that would classify as RIGHT); the movement gate still
forces NONE. -/
theorem stationary_hand_yields_none_witness :
    dist2 (palmCenter Lstat) (1/2, 1/2) < MOVEMENT_THRESHOLD ^ 2 ∧
    detect_hand_direction Lstat (some (1/2, 1/2)) = (none, palmCenter Lstat) := by
  have hd : dist2 (palmCenter Lstat) (1/2, 1/2) < MOVEMENT_THRESHOLD ^ 2 := by
    norm_num [dist2, palmCenter, Lstat_at_9, MOVEMENT_THRESHOLD]
  exact ⟨hd, stationary_hand_yields_none Lstat (1/2, 1/2) hd⟩

-- ================== C6: Zone Router =====================================

/-- C6: a hand is routed to the VISUALIZER role exactly when its palm
screen x-coordinate is strictly left of the midline and to the COMMAND
role exactly when it is at or right of it; in particular a palm exactly
at the midline goes to the COMMAND zone. -/
theorem zone_router_midline (hx mid : ℤ) :
    (route hx mid = Role.visualizer ↔ hx < mid) ∧
    (route hx mid = Role.command ↔ mid ≤ hx) ∧
    route mid mid = Role.command := by
  refine ⟨?_, ?_, ?_⟩ <;> unfold route
  · split_ifs with h <;> simp [h]
  · split_ifs with h
    · simp
      omega
    · simp
      omega
  · simp

-- ================== C10: volume step and clamping =======================

/-- C10: for a current volume in [0, 100], volume-up requests
min(v + 10, 100) and volume-down requests max(v - 10, 0); the requested
volume stays within [0, 100] and the unclamped step is exactly 10. -/
theorem volume_requests_step_and_clamp (v : ℤ) (h0 : 0 ≤ v) (h1 : v ≤ 100) :
    0 ≤ volume_up_request v ∧ volume_up_request v ≤ 100 ∧
    0 ≤ volume_down_request v ∧ volume_down_request v ≤ 100 ∧
    volume_up_request v = min (v + 10) 100 ∧
    volume_down_request v = max (v - 10) 0 ∧
    (v ≤ 90 → volume_up_request v = v + 10) ∧
    (90 ≤ v → volume_up_request v = 100) ∧
    (10 ≤ v → volume_down_request v = v - 10) ∧
    (v ≤ 10 → volume_down_request v = 0) := by
  unfold volume_up_request volume_down_request
  refine ⟨?_, ?_, ?_, ?_, rfl, rfl, ?_, ?_, ?_, ?_⟩ <;> omega

/-- C10 witness: at volume 95, volume-up clamps to 100 and volume-down
steps to 85. -/
theorem volume_requests_witness :
    (0 : ℤ) ≤ 95 ∧ (95 : ℤ) ≤ 100 ∧
    volume_up_request 95 = 100 ∧ volume_down_request 95 = 95 - 10 := by
  refine ⟨by norm_num, by norm_num, ?_, ?_⟩
  · exact (volume_requests_step_and_clamp 95 (by norm_num)
      (by norm_num)).2.2.2.2.2.2.2.1 (by norm_num)
  · exact (volume_requests_step_and_clamp 95 (by norm_num)
      (by norm_num)).2.2.2.2.2.2.2.2.1 (by norm_num)

-- ================== Helper lemmas for the smoother ======================

theorem smoothIter_error (s r f : ℚ) (n : ℕ) :
    r - smoothIter s r f n = (r - s) * (1 - f) ^ n := by
  induction n with
  | zero => simp [smoothIter]
  | succ n ih =>
    have hstep : r - smoothIter s r f (n + 1)
        = (r - smoothIter s r f n) * (1 - f) := by
      simp only [smoothIter, smoothStep]
      ring
    rw [hstep, ih]
    ring

theorem smoothStep_between_le (a r f : ℚ) (hf0 : 0 ≤ f) (hf1 : f ≤ 1)
    (h : a ≤ r) : a ≤ smoothStep a r f ∧ smoothStep a r f ≤ r := by
  unfold smoothStep
  constructor
  · nlinarith
  · nlinarith

theorem smoothStep_between_ge (a r f : ℚ) (hf0 : 0 ≤ f) (hf1 : f ≤ 1)
    (h : r ≤ a) : r ≤ smoothStep a r f ∧ smoothStep a r f ≤ a := by
  unfold smoothStep
  constructor
  · nlinarith
  · nlinarith

-- ================== C4: Temporal Smoother ===============================

/-- C4: the smoothing update is exactly smoothed += (raw - smoothed) *
factor (over both the rational position signals and the real rotation
signal); against a constant raw target the error is multiplied by exactly
(1 - factor) each tick, the iterates never overshoot the target on either
side, and the smoothed value gets within any positive epsilon of the
target; moreover, on a frame with no observed hand the tick leaves every
raw target at its last-set value and still applies exactly one smoothing
update to each of the three smoothed signals. -/
theorem smoother_exponential (s r f : ℚ) (hf0 : 0 < f) (hf1 : f < 1) :
    (∀ a : ℚ, r - smoothStep a r f = (r - a) * (1 - f)) ∧
    (∀ a b g : ℝ, b - smoothStepR a b g = (b - a) * (1 - g)) ∧
    (∀ n : ℕ, r - smoothIter s r f n = (r - s) * (1 - f) ^ n) ∧
    (s ≤ r → ∀ n : ℕ, s ≤ smoothIter s r f n ∧ smoothIter s r f n ≤ r) ∧
    (r ≤ s → ∀ n : ℕ, r ≤ smoothIter s r f n ∧ smoothIter s r f n ≤ s) ∧
    (∀ ε : ℚ, 0 < ε → ∃ n : ℕ, |r - smoothIter s r f n| < ε) ∧
    (∀ (t : ℚ) (st : State),
      (tick t [] st).state.cubePosition = st.cubePosition ∧
      (tick t [] st).state.cubeRotation = st.cubeRotation ∧
      (tick t [] st).state.puckPosition = st.puckPosition ∧
      (tick t [] st).state.smoothedRotation
        = smooth3 st.smoothedRotation st.cubeRotation ((SMOOTHING_FACTOR : ℚ) : ℝ) ∧
      (tick t [] st).state.smoothedPosition
        = (smoothStep st.smoothedPosition.1 (st.cubePosition.1 : ℚ) POSITION_SMOOTHING,
           smoothStep st.smoothedPosition.2 (st.cubePosition.2 : ℚ) POSITION_SMOOTHING) ∧
      (tick t [] st).state.smoothedPuckPosition
        = (smoothStep st.smoothedPuckPosition.1 (st.puckPosition.1 : ℚ) PUCK_POSITION_SMOOTHING,
           smoothStep st.smoothedPuckPosition.2 (st.puckPosition.2 : ℚ) PUCK_POSITION_SMOOTHING)) := by
  refine ⟨?_, ?_, smoothIter_error s r f, ?_, ?_, ?_, ?_⟩
  · intro a
    unfold smoothStep
    ring
  · intro a b g
    unfold smoothStepR
    ring
  · intro hsr n
    induction n with
    | zero => exact ⟨le_refl s, by simpa [smoothIter] using hsr⟩
    | succ n ih =>
      have h := smoothStep_between_le (smoothIter s r f n) r f
        (le_of_lt hf0) (le_of_lt hf1) ih.2
      exact ⟨le_trans ih.1 h.1, h.2⟩
  · intro hrs n
    induction n with
    | zero => exact ⟨by simpa [smoothIter] using hrs, le_refl s⟩
    | succ n ih =>
      have h := smoothStep_between_ge (smoothIter s r f n) r f
        (le_of_lt hf0) (le_of_lt hf1) ih.1
      exact ⟨h.1, le_trans h.2 ih.2⟩
  · intro ε hε
    by_cases hrs : r = s
    · refine ⟨0, ?_⟩
      simp [smoothIter, hrs, hε]
    · have h1 : (0:ℚ) < |r - s| := abs_pos.mpr (sub_ne_zero.mpr hrs)
      obtain ⟨n, hn⟩ := exists_pow_lt_of_lt_one
        (div_pos hε h1) (show (1 - f : ℚ) < 1 by linarith)
      refine ⟨n, ?_⟩
      have hfpow : (0:ℚ) ≤ 1 - f := by linarith
      rw [smoothIter_error, abs_mul, abs_pow, abs_of_nonneg hfpow]
      calc |r - s| * (1 - f) ^ n
          < |r - s| * (ε / |r - s|) := by
            exact mul_lt_mul_of_pos_left hn h1
        _ = ε := by field_simp
  · intro t st
    exact ⟨rfl, rfl, rfl, rfl, rfl, rfl⟩

/-- C4 witness: with factor 1/2 from 0 toward constant target 1, the
error formula applies and three ticks reach 7/8. -/
theorem smoother_exponential_witness :
    (0:ℚ) < 1/2 ∧ (1/2:ℚ) < 1 ∧
    ((1:ℚ) - smoothIter 0 1 (1/2) 3 = (1 - 0) * (1 - 1/2) ^ 3) ∧
    smoothIter 0 1 (1/2) 3 = 7/8 := by
  have h := smoother_exponential 0 1 (1/2) (by norm_num) (by norm_num)
  refine ⟨by norm_num, by norm_num, h.2.2.1 3, ?_⟩
  norm_num [smoothIter, smoothStep]

-- ================== Helper lemmas for the estimator =====================

theorem forwardDenom_pos (lm : Landmarks) : 0 < forwardDenom lm := by
  unfold forwardDenom vnorm NORM_EPS
  positivity

theorem sideDenom_pos (lm : Landmarks) : 0 < sideDenom lm := by
  unfold sideDenom vnorm NORM_EPS
  positivity

theorem atan2_pos_zero (y : ℝ) (hy : 0 < y) : atan2 y 0 = Real.pi / 2 := by
  unfold atan2
  rw [if_neg (lt_irrefl 0), if_neg (lt_irrefl 0), if_pos hy]

-- ================== C7: epsilon guard totality ==========================

/-- C7: the normalization denominators of the Orientation Estimator are
strictly positive for every landmark set, so the division is always by a
nonzero quantity; in particular, for the fully degenerate landmark set in
which all 21 points coincide, the forward vector is exactly zero and the
denominator is still exactly the epsilon 0.0001. -/
theorem estimator_epsilon_guard (lm : Landmarks) :
    0 < forwardDenom lm ∧ 0 < sideDenom lm ∧ forwardDenom lm ≠ 0 ∧
    (forwardVec Ldeg).x = 0 ∧ (forwardVec Ldeg).y = 0 ∧
    (forwardVec Ldeg).z = 0 ∧ forwardDenom Ldeg = NORM_EPS := by
  refine ⟨forwardDenom_pos lm, sideDenom_pos lm,
    ne_of_gt (forwardDenom_pos lm), ?_, ?_, ?_, ?_⟩
  · simp [forwardVec, vsub, Pt3.toVec, Ldeg_at]
  · simp [forwardVec, vsub, Pt3.toVec, Ldeg_at]
  · simp [forwardVec, vsub, Pt3.toVec, Ldeg_at]
  · unfold forwardDenom vnorm
    have hx : (forwardVec Ldeg).x = 0 := by simp [forwardVec, vsub, Pt3.toVec, Ldeg_at]
    have hy : (forwardVec Ldeg).y = 0 := by simp [forwardVec, vsub, Pt3.toVec, Ldeg_at]
    have hz : (forwardVec Ldeg).z = 0 := by simp [forwardVec, vsub, Pt3.toVec, Ldeg_at]
    rw [hx, hy, hz]
    simp

-- ================== C8: estimator formula ===============================

/-- C8: the Orientation Estimator computes exactly the formulas of the spec:
yaw atan2(forward.x, -forward.z) scaled by the sensitivity multiplier
(1.8, which is greater than 1), pitch
atan2(forward.y, sqrt(forward.x^2 + forward.z^2)) scaled down by 0.3, and
roll fixed at zero, with forward the epsilon-normalized vector from the
wrist (landmark 0) to the middle finger base (landmark 9). -/
theorem estimator_matches_spec_formula (lm : Landmarks) :
    get_hand_rotation lm = specRotation lm ∧
    (1 : ℝ) < YAW_SCALE ∧
    (get_hand_rotation lm).2.2 = 0 := by
  refine ⟨rfl, ?_, rfl⟩
  norm_num [YAW_SCALE]

-- ================== C5: applied Orientation Signal ======================

/-- C5 counterexample: the claim says the applied tilt component is the
heavily damped (nonzero in general) estimator pitch, but for a
VISUALIZER-zone hand whose forward vector points straight along positive
y the estimator pitch component is nonzero while the main loop writes 0
into the tilt component of the applied cube rotation. -/
theorem applied_rotation_cex :
    (tick 0 [Lup] initState).state.cubeRotation.1 ≠ (get_hand_rotation Lup).1 := by
  have hz : route (pyInt ((Lup 9).x * (WIDTH : ℚ))) screenCenterX
      = Role.visualizer := by
    norm_num [route, pyInt, Lup_at_9, WIDTH, screenCenterX]
  have h1 : (tick 0 [Lup] initState).state.cubeRotation.1 = 0 := by
    simp [tick, processHand, hz]
  have hfx : (forwardVec Lup).x = 0 := by
    simp [forwardVec, vsub, Pt3.toVec, Lup_at_9, Lup_at_0]
  have hfy : (forwardVec Lup).y = 1 := by
    simp [forwardVec, vsub, Pt3.toVec, Lup_at_9, Lup_at_0]
  have hfz : (forwardVec Lup).z = 0 := by
    simp [forwardVec, vsub, Pt3.toVec, Lup_at_9, Lup_at_0]
  have hd : 0 < forwardDenom Lup := forwardDenom_pos Lup
  have h2 : (get_hand_rotation Lup).1 = Real.pi / 2 * PITCH_DAMP := by
    show atan2 ((forwardN Lup).y)
        (Real.sqrt ((forwardN Lup).x ^ 2 + (forwardN Lup).z ^ 2)) * PITCH_DAMP
      = Real.pi / 2 * PITCH_DAMP
    have hnx : (forwardN Lup).x = 0 := by
      unfold forwardN
      rw [hfx]
      simp
    have hny : (forwardN Lup).y = 1 / forwardDenom Lup := by
      unfold forwardN
      rw [hfy]
    have hnz : (forwardN Lup).z = 0 := by
      unfold forwardN
      rw [hfz]
      simp
    rw [hnx, hny, hnz]
    have hs : Real.sqrt ((0:ℝ) ^ 2 + (0:ℝ) ^ 2) = 0 := by
      norm_num
    rw [hs, atan2_pos_zero (1 / forwardDenom Lup) (by positivity)]
  rw [h1, h2]
  have hpi : 0 < Real.pi := Real.pi_pos
  have : 0 < Real.pi / 2 * PITCH_DAMP := by
    unfold PITCH_DAMP
    positivity
  linarith

/-- C5 (amended): after a frame with a VISUALIZER-zone hand the applied
cube rotation holds BOTH its tilt and its twist component at exactly
zero (the damped estimator pitch is computed but discarded by the
loop), and only the yaw axis carries range, scaled by
ROTATION_SENSITIVITY; on a frame with no hand, or with only a
COMMAND-zone hand, all three components hold their previous value. -/
theorem applied_rotation_amended (lm lm2 : Landmarks) (st : State) (t : ℚ)
    (hz : route (pyInt ((lm 9).x * (WIDTH : ℚ))) screenCenterX = Role.visualizer)
    (hz2 : route (pyInt ((lm2 9).x * (WIDTH : ℚ))) screenCenterX = Role.command) :
    (tick t [lm] st).state.cubeRotation
      = (0, (get_hand_rotation lm).2.1 * ROTATION_SENSITIVITY, 0) ∧
    (tick t [] st).state.cubeRotation = st.cubeRotation ∧
    (tick t [lm2] st).state.cubeRotation = st.cubeRotation := by
  refine ⟨?_, rfl, ?_⟩
  · simp [tick, processHand, hz]
  · have hnv : ¬(route (pyInt ((lm2 9).x * (WIDTH : ℚ))) screenCenterX
        = Role.visualizer) := by
      rw [hz2]; simp
    cases hacc : gestureAccepted (detect_hand_direction lm2 st.previousHandPosition).1
        t st.lastGestureTime with
    | false => simp [tick, processHand, hnv, hacc]
    | true => simp [tick, processHand, hnv, hacc]

/-- C5 amended witness: concrete frames with the straight-up left-zone
hand, with no hand, and with the right-zone hand only. -/
theorem applied_rotation_amended_witness :
    route (pyInt ((Lup 9).x * (WIDTH : ℚ))) screenCenterX = Role.visualizer ∧
    route (pyInt ((Rhand 9).x * (WIDTH : ℚ))) screenCenterX = Role.command ∧
    ((tick 0 [Lup] initState).state.cubeRotation
      = (0, (get_hand_rotation Lup).2.1 * ROTATION_SENSITIVITY, 0) ∧
     (tick 0 [] initState).state.cubeRotation = initState.cubeRotation ∧
     (tick 0 [Rhand] initState).state.cubeRotation = initState.cubeRotation) := by
  have hz : route (pyInt ((Lup 9).x * (WIDTH : ℚ))) screenCenterX
      = Role.visualizer := by
    norm_num [route, pyInt, Lup_at_9, WIDTH, screenCenterX]
  have hz2 : route (pyInt ((Rhand 9).x * (WIDTH : ℚ))) screenCenterX
      = Role.command := by
    norm_num [route, pyInt, Rhand_at_9, WIDTH, screenCenterX]
  exact ⟨hz, hz2, applied_rotation_amended Lup Rhand initState 0 hz hz2⟩

-- ================== C1 amended witness ==================================

/-- C1 amended witness: concrete instantiation with the command-zone
right hand at time 1 after a command accepted at time 0. -/
theorem debouncer_cooldown_amended_witness :
    route (pyInt ((Rhand 9).x * (WIDTH : ℚ))) screenCenterX = Role.command ∧
    ((gestureAccepted (some Dir.up) 1 0 = true ↔
        some Dir.up ≠ none ∧ (1:ℚ) - 0 > GESTURE_COOLDOWN) ∧
     gestureAccepted (some Dir.up) (3/10) 0 = false ∧
     gestureAccepted (some Dir.up) (3/5) 0 = true ∧
     ((processHand 1 (initState, [], [], none) Rhand).1.lastGestureTime =
       if gestureAccepted
           (detect_hand_direction Rhand initState.previousHandPosition).1
           1 initState.lastGestureTime
       then 1 else initState.lastGestureTime)) := by
  have hz : route (pyInt ((Rhand 9).x * (WIDTH : ℚ))) screenCenterX
      = Role.command := by
    norm_num [route, pyInt, Rhand_at_9, WIDTH, screenCenterX]
  exact ⟨hz, debouncer_cooldown_amended (some Dir.up) 1 0 initState [] [] none Rhand hz⟩

-- ================== C9: end-to-end two-hand scenario ====================

/-- C9: in one frame at time 10 with the left hand at palm x = 0.2 and
the right hand at palm x = 0.8 pointing straight up beyond the gesture
threshold, with palm movement above the movement threshold and no prior
accepted command, exactly one volume-up command is dispatched, the active
control is UP, the orientation estimator receives exactly the landmarks of
the left hand, the applied cube rotation is computed from the left hand only,
and the last-accepted timestamp becomes the current time. -/
theorem end_to_end_scenario :
    (tick 10 [Lhand, Rhand] scenarioState).dispatched = [Cmd.volumeUp] ∧
    (tick 10 [Lhand, Rhand] scenarioState).activeControl = some Dir.up ∧
    (tick 10 [Lhand, Rhand] scenarioState).estimatorInputs = [Lhand] ∧
    (tick 10 [Lhand, Rhand] scenarioState).state.cubeRotation
      = (0, (get_hand_rotation Lhand).2.1 * ROTATION_SENSITIVITY, 0) ∧
    (tick 10 [Lhand, Rhand] scenarioState).state.lastGestureTime = 10 := by
  have hL : route (pyInt ((Lhand 9).x * (WIDTH : ℚ))) screenCenterX
      = Role.visualizer := by
    norm_num [route, pyInt, Lhand_at_9, WIDTH, screenCenterX]
  have hR : ¬(route (pyInt ((Rhand 9).x * (WIDTH : ℚ))) screenCenterX
      = Role.visualizer) := by
    have hcmd : route (pyInt ((Rhand 9).x * (WIDTH : ℚ))) screenCenterX
        = Role.command := by
      norm_num [route, pyInt, Rhand_at_9, WIDTH, screenCenterX]
    rw [hcmd]
    simp
  have hdet : detect_hand_direction Rhand (some ((2:ℚ)⁻¹, (2:ℚ)⁻¹))
      = (some Dir.up, (4/5, 1/2)) := by
    norm_num [detect_hand_direction, palmCenter, dist2, MOVEMENT_THRESHOLD,
      Rhand_at_0, Rhand_at_8, Rhand_at_9, classify, GESTURE_THRESHOLD, abs]
  have hacc : gestureAccepted (some Dir.up) 10 0 = true := by
    norm_num [gestureAccepted, GESTURE_COOLDOWN]
  refine ⟨?_, ?_, ?_, ?_, ?_⟩ <;>
    simp [tick, processHand, hL, hR, scenarioState, initState, hdet, hacc, cmdOf]
